import Mathlib

/-!
Verification development for `dbt/schema_tester.py`: a shallow embedding of
the assertion compiler's referential-integrity query semantics, the
validation executor (`SchemaTester.execute_query` / `validate_schema`), and
the result recorder (`SchemaTester.create_test_results_table_if_not_exist` /
`insert_test_results`), together with theorems settling the specification's
claims about them.
-/

namespace Dbt

/-! ## SQL three-valued logic and the referential-integrity query

`QUERY_VALIDATE_REFERENTIAL_INTEGRITY` compiles to

  select count(*) from child
  where id not in (select id from parent) and id is not null

executed by a SQL engine under standard three-valued (Kleene) logic, where a
comparison with NULL is `unknown` and `where` keeps only rows whose predicate
is definitely true.  We model a SQL value of the keyed column as
`Option Int` (`none` = NULL) and a three-valued truth value as `Option Bool`
(`none` = unknown). -/

/-- A SQL value: `none` is the SQL NULL. -/
abbrev SqlVal := Option Int

/-- SQL equality: comparing with NULL is unknown. -/
def tvEq (a b : SqlVal) : Option Bool :=
  match a, b with
  | some x, some y => some (decide (x = y))
  | _, _ => none

/-- Kleene disjunction on three-valued truth. -/
def tvOr (a b : Option Bool) : Option Bool :=
  match a, b with
  | some true, _ => some true
  | _, some true => some true
  | some false, some false => some false
  | _, _ => none

/-- Kleene conjunction on three-valued truth. -/
def tvAnd (a b : Option Bool) : Option Bool :=
  match a, b with
  | some false, _ => some false
  | _, some false => some false
  | some true, some true => some true
  | _, _ => none

/-- Kleene negation on three-valued truth. -/
def tvNot : Option Bool → Option Bool
  | some b => some (!b)
  | none => none

/-- SQL `x in (set)`: a disjunction of equalities under three-valued logic. -/
def tvIn (x : SqlVal) (ys : List SqlVal) : Option Bool :=
  ys.foldr (fun y acc => tvOr (tvEq x y) acc) (some false)

/-- SQL `x is not null` (always definite). -/
def sqlIsNotNull (x : SqlVal) : Option Bool :=
  some x.isSome

/-- A `where` clause keeps a row only when its predicate is definitely true. -/
def isTrue : Option Bool → Bool
  | some true => true
  | _ => false

/-- Count returned by `QUERY_VALIDATE_REFERENTIAL_INTEGRITY` on a parent
column and a child column: the number of child rows satisfying
`id not in (parent) and id is not null` under SQL three-valued logic. -/
def refIntegrityCount (parent child : List SqlVal) : Nat :=
  (child.filter (fun c => isTrue (tvAnd (tvNot (tvIn c parent)) (sqlIsNotNull c)))).length

/-- The specification's stated semantics for the referential-integrity
query, written from the spec's words for comparison with the source's
`refIntegrityCount`: count child rows whose value is non-null and absent
from the set of parent values. -/
def refIntegritySpecCount (parent child : List SqlVal) : Nat :=
  (child.filter (fun c => c.isSome && !(decide (c ∈ parent)))).length

/-! ## Validation executor: `SchemaTester.execute_query`

The executor acquires a handle and a cursor, runs `cursor.execute(sql)`
between two `time.time()` samples, logs the elapsed time at debug level,
then interprets `cursor.fetchone()`:

  * `psycopg2.ProgrammingError` from the execute is caught and
    `e.diag.message_primary` is returned;
  * any other exception from the execute is tagged with the model
    (`e.model = model`) and re-raised;
  * `fetchone()` yields the first result row, or `None` when the result set
    is empty — in which case `len(result)` raises `TypeError`;
  * a first row with other than exactly one column raises `RuntimeError`;
  * otherwise `result[0]` is returned.

We model the database's behaviour for one statement as `ExecResponse`, and
the passage of time as explicit durations: acquiring the handle and cursor
takes `acquireDuration` ticks and the execute itself `execDuration` ticks,
with `time.time()` read off a clock that starts at `t0`. -/

/-- What the database does when asked to execute one statement. -/
inductive ExecResponse
  | ok (rows : List (List Int))
  | programmingError (diagMessagePrimary : String)
  | otherError (msg : String)
deriving DecidableEq

/-- A Python exception escaping the embedded code. -/
inductive PyError
  | nameError (name : String)
  | typeError (msg : String)
  | runtimeError (msg : String)
  | taggedError (model : String) (msg : String)
deriving DecidableEq

/-- The value `execute_query` returns: `result[0]` on a fetched row, or the
engine's primary diagnostic message on a caught `ProgrammingError`. -/
inductive QueryValue
  | intVal (v : Int)
  | errMsg (s : String)
deriving DecidableEq

/-- Durations of the two timed phases of `execute_query`. -/
structure Timing where
  acquireDuration : Nat
  execDuration : Nat
deriving DecidableEq

/-- `SchemaTester.execute_query` with its clock made explicit.  The first
component is the call's outcome; the second is the elapsed time
`post - pre` passed to `self.logger.debug` (present only when the execute
itself did not raise, since the debug call follows the execute). -/
def executeQueryTimed (model : String) (resp : ExecResponse) (t0 : Nat) (tm : Timing) :
    Except PyError QueryValue × Option Nat :=
  let pre := t0 + tm.acquireDuration
  match resp with
  | .programmingError d => (.ok (.errMsg d), none)
  | .otherError m => (.error (.taggedError model m), none)
  | .ok rows =>
    let post := pre + tm.execDuration
    let logged := post - pre
    match rows with
    | [] => (.error (.typeError "object of type NoneType has no len()"), some logged)
    | r :: _ =>
      match r with
      | [v] => (.ok (.intVal v), some logged)
      | _ => (.error (.runtimeError
          ("Unexpected validation result. Expected 1 record, got " ++ toString r.length)),
          some logged)

/-- `SchemaTester.execute_query`: the outcome of the call, independent of
any clock. -/
def executeQuery (model : String) (resp : ExecResponse) : Except PyError QueryValue :=
  (executeQueryTimed model resp 0 ⟨0, 0⟩).1

/-! ## Validation executor: `SchemaTester.validate_schema`

`validate_schema` renders the test's SQL, then calls
`self.execute_query(model, sql)`.  The bare name `model` has no binding: the
locals in scope are `self`, `schema_test` and `sql`, the module's globals
are the imports, the query/DDL templates and the `SchemaTester` class, and
no Python builtin is called `model`.  Evaluating the argument therefore
raises `NameError` when the generator body first runs, before either
`yield`.  We keep Python's name resolution explicit so that the
classification code that follows the call (`num_rows == 0` prints OK and
yields True, otherwise prints FAILED with the value and yields False)
remains part of the model, guarded by the lookup. -/

/-- Names bound at module level in `schema_tester.py`. -/
def moduleGlobals : List String :=
  ["os", "dbt", "psycopg2", "logging", "time", "datetime",
   "QUERY_VALIDATE_NOT_NULL", "QUERY_VALIDATE_UNIQUE",
   "QUERY_VALIDATE_ACCEPTED_VALUES", "QUERY_VALIDATE_REFERENTIAL_INTEGRITY",
   "DDL_TEST_RESULT_CREATE", "INSERT_TEST_RESULT_TEMPLATE", "SchemaTester"]

/-- Local names bound in the body of `validate_schema` by the time
`execute_query` is called. -/
def validateSchemaLocals : List String :=
  ["self", "schema_test", "sql"]

/-- Python name resolution inside `validate_schema`: locals, then module
globals (no builtin named `model` exists). -/
def resolves (n : String) : Bool :=
  validateSchemaLocals.contains n || moduleGlobals.contains n

/-- The lookup of the bare name `model` in `validate_schema`. -/
def lookupModel : Option Unit :=
  if resolves "model" then some () else none

/-- A rendered schema test: `schema_test.render()` yields its SQL. -/
structure SchemaTest where
  rendered : String
deriving DecidableEq

/-- Python's string-vs-int equality: `num_rows == 0` when `num_rows` is the
diagnostic string returned on a caught `ProgrammingError` is `False`. -/
def numRowsEqZero : QueryValue → Bool
  | .intVal n => decide (n = 0)
  | .errMsg _ => false

/-- `SchemaTester.validate_schema`: the list of values the generator yields,
or the exception iterating it raises. -/
def validateSchema (st : SchemaTest) (resp : ExecResponse) : Except PyError (List Bool) :=
  let _sql := st.rendered
  match lookupModel with
  | none => .error (.nameError "model")
  | some _ =>
    match executeQuery "model" resp with
    | .error e => .error e
    | .ok v =>
      if numRowsEqZero v then .ok [true] else .ok [false]

/-! ## Result recorder

`SchemaTester.insert_test_results` first calls
`create_test_results_table_if_not_exist`, then formats one value tuple per
run result from

  `('{tested_at}', '{model_name}', {errored}, {skipped}, {failed},
    {count_failures}, {execution_time})`

with `failed_rows = 0 if res.status == "ERROR" else res.status`,
`failed = "true" if failed_rows > 0 else "false"`,
`count_failures = failed_rows` and `tested_at = self.test_started_at`
(a single timestamp taken once in `__init__`), joins all tuples into ONE
`insert` statement and runs ONE `cursor.execute(stmt)`.  Around each of the
two `cursor.execute` calls only `psycopg2.ProgrammingError` is caught (and
logged); any other exception propagates to the caller.  Executing a single
SQL insert statement writes either all of its value tuples or, when the
statement errors, none of them.

We model the statuses the recorder distinguishes — the string `"ERROR"` or
an integer count — and the database's reaction to each of the two executed
statements as an injected `Except DbError Unit`. -/

/-- A run result's status as the recorder reads it: the string `"ERROR"` or
an integer failure count. -/
inductive Status
  | ERROR
  | count (n : Int)
deriving DecidableEq

/-- One element of the run-result feed consumed by `insert_test_results`. -/
structure RunModelResult where
  modelName : String
  errored : Bool
  skipped : Bool
  status : Status
  executionTime : Int
deriving DecidableEq

/-- `failed_rows = 0 if res.status == "ERROR" else res.status`. -/
def failedRows : Status → Int
  | .ERROR => 0
  | .count n => n

/-- One persisted row of `dbt_test_results`. -/
structure ResultRow where
  tested_at : Nat
  model_name : String
  errored : Bool
  skipped : Bool
  failed : Bool
  count_failures : Int
  execution_time : Int
deriving DecidableEq

/-- The value tuple `insert_test_results` formats for one run result. -/
def rowOf (testStartedAt : Nat) (res : RunModelResult) : ResultRow :=
  let fr := failedRows res.status
  { tested_at := testStartedAt
    model_name := res.modelName
    errored := res.errored
    skipped := res.skipped
    failed := decide (fr > 0)
    count_failures := fr
    execution_time := res.executionTime }

/-- The single bulk insert statement `insert_test_results` builds: one value
tuple per run result, in order, all stamped with the one
`test_started_at`. -/
structure InsertStmt where
  schema : String
  rows : List ResultRow
deriving DecidableEq

/-- Building the bulk insert statement from the run-result feed. -/
def buildInsert (schema : String) (testStartedAt : Nat)
    (results : List RunModelResult) : InsertStmt :=
  { schema := schema, rows := results.map (rowOf testStartedAt) }

/-- An error the database raises while executing a statement:
`psycopg2.ProgrammingError` or any other exception. -/
inductive DbError
  | programming (msg : String)
  | operational (msg : String)
deriving DecidableEq

/-- The persisted state: whether `dbt_test_results` exists and its rows. -/
structure Db where
  tableExists : Bool
  rows : List ResultRow
deriving DecidableEq

/-- `SchemaTester.create_test_results_table_if_not_exist`: runs the
idempotent DDL once; a `ProgrammingError` is caught and logged, any other
exception propagates. -/
def createTable (db : Db) (resp : Except DbError Unit) : Except DbError Db :=
  match resp with
  | .ok _ => .ok { db with tableExists := true }
  | .error (.programming _) => .ok db
  | .error e => .error e

/-- `SchemaTester.insert_test_results`: ensure the table, build the single
bulk statement, execute it once.  A `ProgrammingError` from the execute is
caught and logged, leaving the statement's rows unwritten; any other
exception propagates.  A successful execute appends every tuple of the one
statement. -/
def insertTestResults (schema : String) (testStartedAt : Nat)
    (results : List RunModelResult) (db : Db)
    (createResp insResp : Except DbError Unit) : Except DbError Db :=
  match createTable db createResp with
  | .error e => .error e
  | .ok db1 =>
    let stmt := buildInsert schema testStartedAt results
    match insResp with
    | .ok _ => .ok { db1 with rows := db1.rows ++ stmt.rows }
    | .error (.programming _) => .ok db1
    | .error e => .error e

/-! ## Supporting lemmas -/

lemma tvOr_some (a b : Bool) : tvOr (some a) (some b) = some (a || b) := by
  cases a <;> cases b <;> rfl

lemma tvAnd_some_false_right (a : Option Bool) : tvAnd a (some false) = some false := by
  rcases a with _ | b
  · rfl
  · cases b <;> rfl

lemma tvAnd_some_true_right (b : Bool) : tvAnd (some b) (some true) = some b := by
  cases b <;> rfl

lemma tvIn_some_of_none_notMem (parent : List SqlVal) (h : (none : SqlVal) ∉ parent)
    (x : Int) : tvIn (some x) parent = some (decide (some x ∈ parent)) := by
  induction parent with
  | nil => simp [tvIn]
  | cons p ps ih =>
    rcases p with _ | y
    · exact absurd (List.mem_cons_self _ _) h
    · have hps : (none : SqlVal) ∉ ps := fun hm => h (List.mem_cons_of_mem _ hm)
      simp only [tvIn, List.foldr_cons] at *
      rw [ih hps]
      simp [tvEq, tvOr_some, List.mem_cons]

lemma refPred_eq (parent : List SqlVal) (h : (none : SqlVal) ∉ parent) (c : SqlVal) :
    isTrue (tvAnd (tvNot (tvIn c parent)) (sqlIsNotNull c)) =
      (c.isSome && !(decide (c ∈ parent))) := by
  rcases c with _ | x
  · simp only [sqlIsNotNull, Option.isSome_none, tvAnd_some_false_right]
    rfl
  · rw [tvIn_some_of_none_notMem parent h x]
    simp only [sqlIsNotNull, Option.isSome_some, tvNot, tvAnd_some_true_right]
    cases hd : decide (some x ∈ parent) <;> simp [isTrue, hd]

lemma refPred_none (parent : List SqlVal) :
    isTrue (tvAnd (tvNot (tvIn (none : SqlVal) parent)) (sqlIsNotNull none)) = false := by
  simp only [sqlIsNotNull, Option.isSome_none, tvAnd_some_false_right]
  rfl

lemma tested_at_rowOf (t : Nat) (r : RunModelResult) : (rowOf t r).tested_at = t := rfl

lemma map_tested_at (t : Nat) (results : List RunModelResult) :
    (results.map (rowOf t)).map ResultRow.tested_at = List.replicate results.length t := by
  induction results with
  | nil => rfl
  | cons r rs ih => simp [List.replicate_succ, ih, tested_at_rowOf]

/-! ## Claim theorems: validation executor -/

/-- C1: the claim says an execution whose query returns one row with one
integer column `v` is classified Passed when `v == 0` and Failed(v) when
`v > 0`; the code instead raises `NameError` at the `execute_query(model,
sql)` call — here evaluated at a concrete schema test whose query returns
the single row `[0]` — so no execution is ever classified. -/
theorem validate_schema_nameError_at_concrete_input :
    validateSchema ⟨"select count(*) from validation where f is null"⟩
      (.ok [[0]]) = .error (.nameError "model") := rfl

/-- C10: for every schema test and every database response, iterating
`validate_schema` raises `NameError` (for the unbound name `model`) before
yielding any classification. -/
theorem validate_schema_raises_nameError (st : SchemaTest) (resp : ExecResponse) :
    validateSchema st resp = .error (.nameError "model") := rfl

/-- C2: a query-level `psycopg2.ProgrammingError` is recovered locally:
`execute_query` returns normally (it does not raise to the caller), and the
value it returns is the engine's primary diagnostic message, not a
Passed/Failed classification value. -/
theorem execute_query_programming_error_recovered (model d : String) :
    executeQuery model (.programmingError d) = .ok (.errMsg d) := rfl

/-- C3 counterexample: a result set of two rows (each with one column) is
not a fatal failure — `fetchone` silently coerces it to the first row and
`execute_query` returns that row's value. -/
theorem execute_query_shape_counterexample :
    executeQuery "m" (.ok [[5], [7]]) = .ok (.intVal 5) ∧
      ([[(5 : Int)], [7]] : List (List Int)).length = 2 :=
  ⟨rfl, rfl⟩

/-- C3 amended: a result set with zero rows raises a fatal `TypeError`
(`len(None)`); a first row with other than exactly one column raises a
fatal `RuntimeError`; rows beyond the first are ignored, and a first row
with exactly one column is returned as the value. -/
theorem execute_query_shape :
    (∀ m, executeQuery m (.ok []) =
      .error (.typeError "object of type NoneType has no len()")) ∧
    (∀ m (r : List Int) rest, r.length ≠ 1 →
      executeQuery m (.ok (r :: rest)) =
        .error (.runtimeError
          ("Unexpected validation result. Expected 1 record, got " ++ toString r.length))) ∧
    (∀ m (v : Int) rest, executeQuery m (.ok ([v] :: rest)) = .ok (.intVal v)) := by
  refine ⟨fun m => rfl, ?_, fun m v rest => rfl⟩
  intro m r rest h
  match r with
  | [] => rfl
  | [v] => exact absurd rfl h
  | v :: w :: t => rfl

/-- C3 amended, instantiated: a fetched row of two columns raises the
`RuntimeError`. -/
theorem execute_query_shape_witness :
    ([(1 : Int), 2] : List Int).length ≠ 1 ∧
      executeQuery "m" (.ok [[1, 2]]) =
        .error (.runtimeError
          ("Unexpected validation result. Expected 1 record, got " ++
            toString ([(1 : Int), 2] : List Int).length)) :=
  ⟨by decide, execute_query_shape.2.1 "m" [1, 2] [] (by decide)⟩

/-- C8 counterexample: two executions of the same query differing only in
how long the statement took produce identical outcomes, so the measured
execution time is not attached to the resulting outcome (the code only
passes it to a debug log). -/
theorem timing_not_attached_counterexample :
    (executeQueryTimed "m" (.ok [[0]]) 0 ⟨3, 5⟩).1 =
      (executeQueryTimed "m" (.ok [[0]]) 0 ⟨3, 9⟩).1 ∧
    (executeQueryTimed "m" (.ok [[0]]) 0 ⟨3, 5⟩).2 ≠
      (executeQueryTimed "m" (.ok [[0]]) 0 ⟨3, 9⟩).2 :=
  ⟨rfl, by decide⟩

/-- C8 amended: the elapsed time logged by `execute_query` is measured
strictly around the statement execution — it equals the execute duration,
independent of the clock start and of how long connection/cursor
acquisition took — but it is only logged, never attached to the outcome:
the outcome is independent of all timing. -/
theorem execute_query_timing :
    (∀ m rows t0 tm, (executeQueryTimed m (.ok rows) t0 tm).2 = some tm.execDuration) ∧
    (∀ m resp t0 t0' tm tm',
      (executeQueryTimed m resp t0 tm).1 = (executeQueryTimed m resp t0' tm').1) := by
  constructor
  · intro m rows t0 tm
    match rows with
    | [] => simp [executeQueryTimed]
    | [v] :: rest => simp [executeQueryTimed]
    | [] :: rest => simp [executeQueryTimed]
    | (v :: w :: t) :: rest => simp [executeQueryTimed]
  · intro m resp t0 t0' tm tm'
    match resp with
    | .programmingError d => rfl
    | .otherError s => rfl
    | .ok [] => rfl
    | .ok ([v] :: rest) => rfl
    | .ok ([] :: rest) => rfl
    | .ok ((v :: w :: t) :: rest) => rfl

/-! ## Claim theorems: result recorder -/

/-- C4 counterexample: a skipped outcome carrying the nominal status value 3
is persisted with `count_failures = 3` and `failed = true`, not with 0 and
false — the code zeroes only on `status == "ERROR"`, never on `skipped`. -/
theorem insert_skipped_counterexample :
    (⟨"users", false, true, .count 3, 1⟩ : RunModelResult).skipped = true ∧
    (rowOf 0 ⟨"users", false, true, .count 3, 1⟩).count_failures = 3 ∧
    (rowOf 0 ⟨"users", false, true, .count 3, 1⟩).failed = true := by
  refine ⟨rfl, rfl, ?_⟩
  decide

/-- C4 amended: the recorder records `count_failures = 0` and
`failed = false` exactly for outcomes whose status is the string "ERROR";
for an integer status `n` it records `count_failures = n` and
`failed = (n > 0)`, regardless of the skipped flag. -/
theorem insert_status_zeroing (t : Nat) (res : RunModelResult) :
    (res.status = Status.ERROR →
      (rowOf t res).count_failures = 0 ∧ (rowOf t res).failed = false) ∧
    (∀ n : Int, res.status = Status.count n →
      (rowOf t res).count_failures = n ∧ (rowOf t res).failed = decide (n > 0)) := by
  constructor
  · intro h
    simp [rowOf, failedRows, h]
  · intro n h
    simp [rowOf, failedRows, h]

/-- C4 amended, instantiated at an "ERROR"-status outcome and at a skipped
outcome with integer status 2. -/
theorem insert_status_zeroing_witness :
    ((rowOf 0 ⟨"a", false, false, .ERROR, 0⟩).count_failures = 0 ∧
      (rowOf 0 ⟨"a", false, false, .ERROR, 0⟩).failed = false) ∧
    ((rowOf 0 ⟨"b", false, true, .count 2, 0⟩).count_failures = 2 ∧
      (rowOf 0 ⟨"b", false, true, .count 2, 0⟩).failed = decide ((2 : Int) > 0)) :=
  ⟨(insert_status_zeroing 0 ⟨"a", false, false, .ERROR, 0⟩).1 rfl,
   (insert_status_zeroing 0 ⟨"b", false, true, .count 2, 0⟩).2 2 rfl⟩

/-- C5: `insert_test_results` builds one bulk statement with one value
tuple per outcome (in order), every tuple stamped with the single
`test_started_at`; executing it once appends exactly those rows, and a
failed execute leaves the stored rows untouched — zero new rows, never a
partial subset. -/
theorem insert_test_results_single_bulk (s : String) (t : Nat)
    (results : List RunModelResult) (db : Db) :
    ((buildInsert s t results).rows = results.map (rowOf t)) ∧
    ((buildInsert s t results).rows.length = results.length) ∧
    ((buildInsert s t results).rows.map ResultRow.tested_at =
      List.replicate results.length t) ∧
    (insertTestResults s t results db (.ok ()) (.ok ()) =
      .ok { tableExists := true, rows := db.rows ++ (buildInsert s t results).rows }) ∧
    (∀ m, insertTestResults s t results db (.ok ()) (.error (.programming m)) =
      .ok { tableExists := true, rows := db.rows }) := by
  refine ⟨rfl, List.length_map _ _, map_tested_at t results, rfl, fun m => rfl⟩

/-- C6 counterexample: an errored outcome whose status is the integer 7
(not the string "ERROR") is persisted with `count_failures = 7`, not 0. -/
theorem insert_errored_counterexample :
    (⟨"m", true, false, .count 7, 0⟩ : RunModelResult).errored = true ∧
    (rowOf 0 ⟨"m", true, false, .count 7, 0⟩).count_failures = 7 :=
  ⟨rfl, rfl⟩

/-- C6 amended: every value tuple the recorder formats satisfies
`failed == (count_failures > 0)`; `count_failures = 0` is guaranteed
exactly when the outcome's status is the string "ERROR" (not by its
`errored` flag). -/
theorem insert_row_invariant (t : Nat) (res : RunModelResult) :
    ((rowOf t res).failed = decide ((rowOf t res).count_failures > 0)) ∧
    (res.status = Status.ERROR → (rowOf t res).count_failures = 0) := by
  refine ⟨rfl, fun h => ?_⟩
  simp [rowOf, failedRows, h]

/-- C6 amended, instantiated at an "ERROR"-status outcome. -/
theorem insert_row_invariant_witness :
    ((rowOf 0 ⟨"m", true, false, .ERROR, 0⟩).failed =
      decide ((rowOf 0 ⟨"m", true, false, .ERROR, 0⟩).count_failures > 0)) ∧
    ((rowOf 0 ⟨"m", true, false, .ERROR, 0⟩).count_failures = 0) :=
  ⟨(insert_row_invariant 0 ⟨"m", true, false, .ERROR, 0⟩).1,
   (insert_row_invariant 0 ⟨"m", true, false, .ERROR, 0⟩).2 rfl⟩

/-- C7 counterexample: a non-programming database error during the bulk
insert (e.g. a connection loss) is not caught — `insert_test_results`
raises it to the caller. -/
theorem recorder_raises_counterexample :
    insertTestResults "s" 0 [] ⟨false, []⟩ (.ok ()) (.error (.operational "connection lost")) =
      .error (.operational "connection lost") := rfl

/-- C7 amended: during both the table-creation and the bulk-insert step only
`psycopg2.ProgrammingError` is caught (logged and recovered locally); any
other exception propagates to the caller from either step. -/
theorem recorder_error_recovery :
    (∀ db m, createTable db (.error (.programming m)) = .ok db) ∧
    (∀ s t results db m,
      insertTestResults s t results db (.ok ()) (.error (.programming m)) =
        .ok { db with tableExists := true }) ∧
    (∀ db m, createTable db (.error (.operational m)) = .error (.operational m)) ∧
    (∀ s t results db m,
      insertTestResults s t results db (.error (.operational m)) (.ok ()) =
        .error (.operational m)) ∧
    (∀ s t results db m,
      insertTestResults s t results db (.ok ()) (.error (.operational m)) =
        .error (.operational m)) :=
  ⟨fun _ _ => rfl, fun _ _ _ _ _ => rfl, fun _ _ => rfl,
   fun _ _ _ _ _ => rfl, fun _ _ _ _ _ => rfl⟩

/-! ## Claim theorems: referential-integrity query -/

/-- C9 counterexample: with parent column `[NULL]` and child column `[1]`,
the child value 1 is non-null and absent from the parent set, yet
`id not in (select id from parent)` is unknown under SQL three-valued
logic, so the query counts 0 violations where the claim demands 1. -/
theorem ref_integrity_counterexample :
    refIntegrityCount [none] [some 1] ≠ refIntegritySpecCount [none] [some 1] ∧
    refIntegrityCount [none] [some 1] = 0 ∧
    refIntegritySpecCount [none] [some 1] = 1 := by
  refine ⟨?_, rfl, rfl⟩
  decide

/-- C9 amended: when the parent column contains no NULL, the query counts
exactly the child rows whose value is non-null and absent from the parent
set; and a child row with NULL value is never counted, whatever the parent
column holds. -/
theorem ref_integrity_semantics :
    (∀ parent child, (none : SqlVal) ∉ parent →
      refIntegrityCount parent child = refIntegritySpecCount parent child) ∧
    (∀ parent child,
      refIntegrityCount parent ((none : SqlVal) :: child) = refIntegrityCount parent child) := by
  constructor
  · intro parent child h
    unfold refIntegrityCount refIntegritySpecCount
    have : ∀ c ∈ child,
        isTrue (tvAnd (tvNot (tvIn c parent)) (sqlIsNotNull c)) =
          (c.isSome && !(decide (c ∈ parent))) :=
      fun c _ => refPred_eq parent h c
    rw [List.filter_congr this]
  · intro parent child
    unfold refIntegrityCount
    rw [List.filter_cons]
    simp [refPred_none]

/-- C9 amended, instantiated: parent `[3]` (no NULL), child `[1, NULL]` —
the query agrees with the spec's count there, and prepending a NULL child
row changes nothing. -/
theorem ref_integrity_semantics_witness :
    ((none : SqlVal) ∉ [some (3 : Int)] ∧
      refIntegrityCount [some 3] [some 1, none] =
        refIntegritySpecCount [some 3] [some 1, none]) ∧
    refIntegrityCount [some 3] ((none : SqlVal) :: [some 1]) =
      refIntegrityCount [some 3] [some 1] :=
  ⟨⟨by decide, ref_integrity_semantics.1 [some 3] [some 1, none] (by decide)⟩,
   ref_integrity_semantics.2 [some 3] [some 1]⟩

end Dbt
